import Mathlib

/-!
Shallow embedding of the Simplified-Trading-Bot repository (src/basic_bot.py,
src/market_orders.py, src/limit_orders.py) and proofs about its order
validation and placement pipeline.

Modelling conventions:
* Python floats are modelled as exact rationals (`ℚ`); the numeric literals in
  the code (`1e-10`, `0.01`, ...) are taken at their decimal value.
* A call to the Binance client that may raise is modelled as an `Option`-valued
  field of an explicit `Gateway` record: `none` means the call raises, and the
  translation of each `try/except` block maps `none` to the `except` branch.
* `place_market_order`/`place_limit_order` additionally return the list of
  requests submitted through `futures_create_order`, so that "no order
  submission happened" is expressible as that list being empty.
* Log output is modelled only where a claim is about it: the quantity check
  also returns the warning/error message it logs on rejection.
-/

namespace TradingBot

/-- One entry of a symbol's `filters` list in the exchange metadata.  In the
source these are dicts with a `filterType` key; only the `minQty` value of a
`LOT_SIZE` filter and the `tickSize` value of a `PRICE_FILTER` are read, so
only those fields are modelled (already coerced from string to number, as the
source does with `float(...)`). -/
structure FilterItem where
  filterType : String
  minQty : ℚ := 0
  tickSize : ℚ := 0
deriving DecidableEq, Repr

/-- One entry of `exchange_info['symbols']`. -/
structure SymbolInfo where
  symbol : String
  status : String
  filters : List FilterItem
deriving DecidableEq, Repr

/-- The response of `futures_exchange_info()`. -/
structure ExchangeInfo where
  symbols : List SymbolInfo
deriving DecidableEq, Repr

/-- The response of `futures_account()`.  Each balance field is `none` when the
key is absent from the upstream dict (so `dict.get(key, 0)` yields the default)
and `some v` when it is present with numeric value `v`. -/
structure AccountInfo where
  totalWalletBalance : Option ℚ := none
  totalUnrealizedPnL : Option ℚ := none
  totalMarginBalance : Option ℚ := none
  availableBalance : Option ℚ := none
deriving DecidableEq, Repr

/-- The keyword arguments of a `futures_create_order` call.  Market orders pass
no `price` and no `timeInForce`, hence the `Option`s. -/
structure OrderRequest where
  symbol : String
  side : String
  type : String
  quantity : ℚ
  price : Option ℚ := none
  timeInForce : Option String := none
deriving DecidableEq, Repr

/-- The Binance client (`self.bot.client`) as seen by the code under
verification: each method either raises (`none`) or returns a value.
`createOrder` returns the `orderId` of the created order; `getOrder` returns
the `status` field of the order dict (`none` inside `some` models a dict
without a `status` key, matching `.get('status')`). -/
structure Gateway where
  exchangeInfo : Option ExchangeInfo
  accountInfo : Option AccountInfo
  createOrder : OrderRequest → Option Nat
  getOrder : String → Nat → Option (Option String)

/-- The normalized result dict returned by a successful
`place_market_order`/`place_limit_order`.  Market-order results carry no
`price` key, modelled as `price = none`.  The raw response is not modelled
beyond the order id it contains. -/
structure OrderResult where
  order_id : Nat
  symbol : String
  side : String
  quantity : ℚ
  price : Option ℚ
  type : String
  status : Option String
deriving DecidableEq, Repr

/-- The balance dict built by `BasicBot.get_account_balance`. -/
structure BalanceInfo where
  total_wallet_balance : ℚ
  total_unrealized_pnl : ℚ
  total_margin_balance : ℚ
  available_balance : ℚ
deriving DecidableEq, Repr

/-! ### BasicBot (src/basic_bot.py) -/

/-- Embedding of `BasicBot._test_connection` (basic_bot.py lines 78-87): query
account info; on an exception, catch it, log it and return `False`; otherwise
log the balance and return `True`.  It never raises. -/
def test_connection (g : Gateway) : Bool :=
  match g.accountInfo with
  | none => false
  | some _ => true

/-- A constructed `BasicBot`: it keeps the client handle. -/
structure Bot where
  gateway : Gateway

/-- Embedding of `BasicBot.__init__` (basic_bot.py lines 20-49).  The `try`
block can only raise from the `Client(...)` construction itself (modelled by
the flag `clientOk`): `_test_connection` handles its own exceptions and its
Boolean result is discarded apart from logging, so a failed connectivity check
does not abort construction. -/
def bot_init (clientOk : Bool) (g : Gateway) : Except String Bot :=
  if clientOk then
    let _ := test_connection g
    Except.ok { gateway := g }
  else
    Except.error "Failed to initialize bot"

/-- Embedding of `BasicBot.validate_symbol` (basic_bot.py lines 89-115): the
upper-cased symbol must appear among the symbols whose status is `TRADING`; an
exception from the metadata fetch is caught and yields `False`. -/
def validate_symbol (g : Gateway) (symbol : String) : Bool :=
  match g.exchangeInfo with
  | none => false
  | some exchange_info =>
      let symbols := (exchange_info.symbols.filter
        (fun s => s.status == "TRADING")).map (fun s => s.symbol)
      symbols.contains symbol.toUpper

/-- The first `LOT_SIZE` filter's `minQty` in a filter list, mirroring the
inner loop of `validate_quantity`. -/
def findLotSize : List FilterItem → Option ℚ
  | [] => none
  | f :: rest =>
      if f.filterType == "LOT_SIZE" then some f.minQty else findLotSize rest

/-- The warning logged by `validate_quantity` when the quantity is below the
symbol minimum (basic_bot.py line 140). -/
def below_minimum_msg (quantity min_qty : ℚ) (symbol : String) : String :=
  "Quantity " ++ toString quantity ++ " below minimum " ++ toString min_qty
    ++ " for " ++ symbol

/-- The warning logged by `validate_quantity` when no symbol entry with a
`LOT_SIZE` filter matches (basic_bot.py line 143). -/
def no_qty_info_msg (symbol : String) : String :=
  "Could not find quantity validation info for " ++ symbol

/-- The error logged by `validate_quantity` when the metadata fetch raises
(basic_bot.py line 147). -/
def qty_error_msg (symbol : String) : String :=
  "Error validating quantity for " ++ symbol

/-- The outer loop of `validate_quantity` (basic_bot.py lines 131-144): scan
the symbol entries; at the first matching entry that has a `LOT_SIZE` filter,
return `quantity >= minQty` (with the warning it logs on rejection); a
matching entry without a `LOT_SIZE` filter does not return, the loop goes on;
falling off the loop returns `False` with the could-not-find warning. -/
def validateQtyLoop : List SymbolInfo → String → ℚ → Bool × List String
  | [], symbol, _ => (false, [no_qty_info_msg symbol])
  | s :: rest, symbol, quantity =>
      if s.symbol == symbol.toUpper then
        match findLotSize s.filters with
        | some min_qty =>
            if min_qty ≤ quantity then (true, [])
            else (false, [below_minimum_msg quantity min_qty symbol])
        | none => validateQtyLoop rest symbol quantity
      else validateQtyLoop rest symbol quantity

/-- Embedding of `BasicBot.validate_quantity` (basic_bot.py lines 117-148),
paired with the warning/error messages it logs on the rejecting paths. -/
def validate_quantity (g : Gateway) (symbol : String) (quantity : ℚ) :
    Bool × List String :=
  match g.exchangeInfo with
  | none => (false, [qty_error_msg symbol])
  | some exchange_info => validateQtyLoop exchange_info.symbols symbol quantity

/-- Embedding of `BasicBot.get_symbol_info` (basic_bot.py lines 150-171):
first symbol entry matching the upper-cased symbol, `none` when absent or when
the metadata fetch raises. -/
def get_symbol_info (g : Gateway) (symbol : String) : Option SymbolInfo :=
  match g.exchangeInfo with
  | none => none
  | some exchange_info =>
      exchange_info.symbols.find? (fun s => s.symbol == symbol.toUpper)

/-- Embedding of `BasicBot.get_account_balance` (basic_bot.py lines 173-195):
coerce the four balance fields, defaulting an absent field to `0`; a raising
account query yields `none`. -/
def get_account_balance (g : Gateway) : Option BalanceInfo :=
  match g.accountInfo with
  | none => none
  | some account_info =>
      some { total_wallet_balance := account_info.totalWalletBalance.getD 0
             total_unrealized_pnl := account_info.totalUnrealizedPnL.getD 0
             total_margin_balance := account_info.totalMarginBalance.getD 0
             available_balance := account_info.availableBalance.getD 0 }

/-! ### Shared validation steps of the order managers -/

/-- The side check shared by both managers (`side.upper() not in ['BUY',
'SELL']`, market_orders.py line 93 / limit_orders.py line 98). -/
def isValidSide (side : String) : Bool :=
  side.toUpper == "BUY" || side.toUpper == "SELL"

/-- The error logged on a non-positive quantity (market_orders.py line 99 /
limit_orders.py line 104). -/
def invalid_quantity_msg (quantity : ℚ) : String :=
  "Invalid quantity: " ++ toString quantity ++ ". Must be positive"

/-- The quantity admissibility step of input validation (market_orders.py
lines 97-103 = limit_orders.py lines 102-108): reject a non-positive quantity
outright, otherwise defer to `validate_quantity`; paired with the message the
rejecting path logs. -/
def quantity_check (g : Gateway) (symbol : String) (quantity : ℚ) :
    Bool × List String :=
  if quantity ≤ 0 then (false, [invalid_quantity_msg quantity])
  else validate_quantity g symbol quantity

/-- Python's `round` on a rational: nearest integer, ties to even. -/
def pyRound (x : ℚ) : ℤ :=
  let f := ⌊x⌋
  let frac := x - f
  if frac < 1 / 2 then f
  else if 1 / 2 < frac then f + 1
  else if f % 2 = 0 then f else f + 1

/-- The loop of `_validate_price_precision` over the filter list
(limit_orders.py lines 137-152): at the first `PRICE_FILTER`, return the
tolerance-aware tick-alignment test; a filter list without a `PRICE_FILTER`
falls through to `True`.  A zero tick size makes `price / tick_size` raise
`ZeroDivisionError` in the source, caught by the surrounding `except` which
returns `False`. -/
def pricePrecLoop : List FilterItem → ℚ → Bool
  | [], _ => true
  | f :: rest, price =>
      if f.filterType == "PRICE_FILTER" then
        let tick_size := f.tickSize
        if tick_size = 0 then false
        else
          let rounded_price : ℚ := (pyRound (price / tick_size) : ℚ) * tick_size
          let tolerance := tick_size * (1 / 10 ^ 10)
          decide (|price - rounded_price| ≤ tolerance)
      else pricePrecLoop rest price

/-- Embedding of `LimitOrderManager._validate_price_precision`
(limit_orders.py lines 121-156): fetch the symbol info (`False` when absent),
then run the filter loop. -/
def validate_price_precision (g : Gateway) (symbol : String) (price : ℚ) :
    Bool :=
  match get_symbol_info g symbol with
  | none => false
  | some symbol_info => pricePrecLoop symbol_info.filters price

/-- Embedding of `MarketOrderManager._validate_market_order_inputs`
(market_orders.py lines 75-105): symbol, side and quantity checks in order,
stopping at the first failure. -/
def validate_market_order_inputs (g : Gateway) (symbol side : String)
    (quantity : ℚ) : Bool :=
  validate_symbol g symbol &&
  isValidSide side &&
  (quantity_check g symbol quantity).1

/-- Embedding of `LimitOrderManager._validate_limit_order_inputs`
(limit_orders.py lines 79-119): the market-order checks followed by the
positive-price check and the tick-alignment check. -/
def validate_limit_order_inputs (g : Gateway) (symbol side : String)
    (quantity price : ℚ) : Bool :=
  validate_symbol g symbol &&
  isValidSide side &&
  (quantity_check g symbol quantity).1 &&
  decide (0 < price) &&
  validate_price_precision g symbol price

/-! ### Order managers (src/market_orders.py, src/limit_orders.py) -/

/-- Embedding of `_get_order_status` (market_orders.py lines 107-127 =
limit_orders.py lines 158-178): query the order, return its `status` field;
an exception is caught and yields `none`. -/
def get_order_status (g : Gateway) (symbol : String) (order_id : Nat) :
    Option String :=
  match g.getOrder symbol.toUpper order_id with
  | none => none
  | some status => status

/-- The request submitted by `place_market_order` (market_orders.py lines
48-53): upper-cased symbol and side, no price. -/
def marketRequest (symbol side : String) (quantity : ℚ) : OrderRequest :=
  { symbol := symbol.toUpper, side := side.toUpper, type := "MARKET",
    quantity := quantity }

/-- The request submitted by `place_limit_order` (limit_orders.py lines
49-56): upper-cased symbol and side, the caller's price, time in force GTC. -/
def limitRequest (symbol side : String) (quantity price : ℚ) : OrderRequest :=
  { symbol := symbol.toUpper, side := side.toUpper, type := "LIMIT",
    quantity := quantity, price := some price, timeInForce := some "GTC" }

/-- Embedding of `MarketOrderManager.place_market_order` (market_orders.py
lines 27-73), also returning the list of requests submitted through
`futures_create_order`.  On validation failure the function returns `None`
without submitting; an exception from the submission is caught by the outer
`try` and yields `None`; otherwise the result dict echoes the caller's
arguments verbatim (no `price` key for a market order). -/
def place_market_order (g : Gateway) (symbol side : String) (quantity : ℚ) :
    Option OrderResult × List OrderRequest :=
  if validate_market_order_inputs g symbol side quantity then
    let req := marketRequest symbol side quantity
    match g.createOrder req with
    | none => (none, [req])
    | some orderId =>
        let order_status := get_order_status g symbol orderId
        (some { order_id := orderId, symbol := symbol, side := side,
                quantity := quantity, price := none, type := "MARKET",
                status := order_status }, [req])
  else (none, [])

/-- Embedding of `LimitOrderManager.place_limit_order` (limit_orders.py lines
27-77), also returning the list of requests submitted through
`futures_create_order`. -/
def place_limit_order (g : Gateway) (symbol side : String)
    (quantity price : ℚ) : Option OrderResult × List OrderRequest :=
  if validate_limit_order_inputs g symbol side quantity price then
    let req := limitRequest symbol side quantity price
    match g.createOrder req with
    | none => (none, [req])
    | some orderId =>
        let order_status := get_order_status g symbol orderId
        (some { order_id := orderId, symbol := symbol, side := side,
                quantity := quantity, price := some price, type := "LIMIT",
                status := order_status }, [req])
  else (none, [])

/-! ### Derived search functions used to state properties of the loops -/

/-- The `tickSize` of the first `PRICE_FILTER` in a filter list: the one the
loop of `_validate_price_precision` acts on. -/
def findTickSize : List FilterItem → Option ℚ
  | [] => none
  | f :: rest =>
      if f.filterType == "PRICE_FILTER" then some f.tickSize else findTickSize rest

/-- The `minQty` governing a quantity validation: the `LOT_SIZE` value of the
first symbol entry matching the upper-cased symbol that has a `LOT_SIZE`
filter, following the traversal order of `validate_quantity`. -/
def lotMin : List SymbolInfo → String → Option ℚ
  | [], _ => none
  | s :: rest, symU =>
      if s.symbol == symU then
        match findLotSize s.filters with
        | some m => some m
        | none => lotMin rest symU
      else lotMin rest symU

/-! ### Concrete gateways used as witnesses -/

/-- The `BTCUSDT` filter list of the mocked gateway of the spec's test
scenario: minQty 0.001 and tick size 0.01. -/
def btcFilters : List FilterItem :=
  [ { filterType := "LOT_SIZE", minQty := 0.001 },
    { filterType := "PRICE_FILTER", tickSize := 0.01 } ]

/-- The `BTCUSDT` metadata entry of the mocked gateway. -/
def btcSymbolInfo : SymbolInfo :=
  { symbol := "BTCUSDT", status := "TRADING", filters := btcFilters }

/-- The mocked gateway of the spec's test scenario: `BTCUSDT` trading with
minQty 0.001 and tick size 0.01, submissions accepted with order id 42,
status queries answering `NEW`. -/
def mockGateway : Gateway :=
  { exchangeInfo := some { symbols := [btcSymbolInfo] }
    accountInfo := some { totalWalletBalance := some 1000 }
    createOrder := fun _ => some 42
    getOrder := fun _ _ => some (some "NEW") }

/-- The mocked gateway, but order submission raises. -/
def failCreateGateway : Gateway :=
  { mockGateway with createOrder := fun _ => none }

/-- The mocked gateway, but the post-submission status query raises. -/
def failStatusGateway : Gateway :=
  { mockGateway with getOrder := fun _ _ => none }

/-- A gateway on which every call raises. -/
def degradedGateway : Gateway :=
  { exchangeInfo := none, accountInfo := none,
    createOrder := fun _ => none, getOrder := fun _ _ => none }

/-- A gateway whose account response carries only `totalWalletBalance`. -/
def partialBalanceGateway : Gateway :=
  { degradedGateway with accountInfo := some { totalWalletBalance := some 5 } }

/-- A gateway whose only symbol, `ETHUSDT`, has an empty filter list. -/
def noFilterGateway : Gateway :=
  { degradedGateway with exchangeInfo := some { symbols :=
      [ { symbol := "ETHUSDT", status := "TRADING", filters := [] } ] } }

/-! ### Helper lemmas -/

theorem char_toNat_ofNat_lt {n : Nat} (h : n < 55296) : (Char.ofNat n).toNat = n := by
  unfold Char.ofNat
  rw [dif_pos (Or.inl h : n.isValidChar)]
  rfl

theorem char_toUpper_toUpper (c : Char) : c.toUpper.toUpper = c.toUpper := by
  simp only [Char.toUpper]
  by_cases h : c.toNat ≥ 97 ∧ c.toNat ≤ 122
  · rw [if_pos h, if_neg]
    rw [char_toNat_ofNat_lt (by omega)]
    omega
  · rw [if_neg h, if_neg h]

theorem toUpper_eq_mk (s : String) : s.toUpper = ⟨s.data.map Char.toUpper⟩ := by
  simp [String.toUpper, String.map_eq]

theorem string_toUpper_toUpper (s : String) : s.toUpper.toUpper = s.toUpper := by
  rw [toUpper_eq_mk s, toUpper_eq_mk]
  exact congrArg String.mk (by
    show (s.data.map Char.toUpper).map Char.toUpper = s.data.map Char.toUpper
    rw [List.map_map]
    exact List.map_congr_left (fun c _ => char_toUpper_toUpper c))

theorem btcusdt_upper : ("BTCUSDT" : String).toUpper = "BTCUSDT" := by
  simp [String.toUpper, String.map_eq]

theorem btcusdt_lower_upper : ("btcusdt" : String).toUpper = "BTCUSDT" := by
  simp [String.toUpper, String.map_eq]

theorem buy_upper : ("buy" : String).toUpper = "BUY" := by
  simp [String.toUpper, String.map_eq]

theorem ethusdt_upper : ("ETHUSDT" : String).toUpper = "ETHUSDT" := by
  simp [String.toUpper, String.map_eq]

theorem pricePrecLoop_eq (filters : List FilterItem) (price : ℚ) :
    pricePrecLoop filters price =
      match findTickSize filters with
      | none => true
      | some t =>
          if t = 0 then false
          else decide (|price - (pyRound (price / t) : ℚ) * t| ≤ t * (1 / 10 ^ 10)) := by
  induction filters with
  | nil => rfl
  | cons f rest ih =>
      by_cases h : f.filterType == "PRICE_FILTER"
      · simp only [pricePrecLoop, findTickSize, h, if_true]
      · simp only [pricePrecLoop, findTickSize, h, if_false, Bool.false_eq_true, ih]

theorem findTickSize_eq_none {l : List FilterItem}
    (h : ∀ f ∈ l, f.filterType ≠ "PRICE_FILTER") : findTickSize l = none := by
  induction l with
  | nil => rfl
  | cons f rest ih =>
      have hf : ¬ (f.filterType == "PRICE_FILTER") = true := by
        simp only [beq_iff_eq]
        exact h f (List.mem_cons_self f rest)
      simp only [findTickSize, hf, if_false, Bool.false_eq_true]
      exact ih (fun f hf => h f (List.mem_cons_of_mem _ hf))

theorem validateQtyLoop_eq (symbols : List SymbolInfo) (symbol : String) (q : ℚ) :
    validateQtyLoop symbols symbol q =
      match lotMin symbols symbol.toUpper with
      | some m => if m ≤ q then (true, []) else (false, [below_minimum_msg q m symbol])
      | none => (false, [no_qty_info_msg symbol]) := by
  induction symbols with
  | nil => rfl
  | cons s rest ih =>
      by_cases h : s.symbol == symbol.toUpper
      · simp only [validateQtyLoop, lotMin, h, if_true]
        cases findLotSize s.filters <;> simp [ih]
      · simp only [validateQtyLoop, lotMin, h, if_false, Bool.false_eq_true, ih]

theorem pyRound_intCast (k : ℤ) : pyRound (k : ℚ) = k := by
  simp [pyRound, Int.floor_intCast]

theorem invalid_quantity_msg_ne (q m : ℚ) (symbol : String) :
    invalid_quantity_msg q ≠ below_minimum_msg q m symbol := by
  intro h
  have h2 := congrArg (fun s => s.data.head?) h
  simp only [invalid_quantity_msg, below_minimum_msg] at h2
  rw [String.data_append, String.data_append, String.data_append,
    String.data_append, String.data_append, String.data_append,
    String.data_append] at h2
  simp at h2

/-! ### Claim theorems -/

/-- Claim C1: for a symbol whose metadata has a `PRICE_FILTER` with tick size
`t > 0` and a price `p > 0`, the price-precision check accepts `p` exactly when
`|p - round(p / t) * t| ≤ t * 1e-10`; in particular it accepts every exact
integer multiple of `t` and rejects every `p` farther than `t * 1e-10` from
every multiple of `t`. -/
theorem validate_price_precision_tick_alignment (g : Gateway) (symbol : String)
    (p t : ℚ) (info : SymbolInfo)
    (hinfo : get_symbol_info g symbol = some info)
    (ht : findTickSize info.filters = some t) (ht0 : 0 < t) (hp : 0 < p) :
    (validate_price_precision g symbol p = true ↔
      |p - (pyRound (p / t) : ℚ) * t| ≤ t * (1 / 10 ^ 10)) ∧
    ((∃ k : ℤ, p = (k : ℚ) * t) → validate_price_precision g symbol p = true) ∧
    ((∀ k : ℤ, t * (1 / 10 ^ 10) < |p - (k : ℚ) * t|) →
      validate_price_precision g symbol p = false) := by
  have hne : t ≠ 0 := ne_of_gt ht0
  have hmain : validate_price_precision g symbol p =
      decide (|p - (pyRound (p / t) : ℚ) * t| ≤ t * (1 / 10 ^ 10)) := by
    simp only [validate_price_precision, hinfo, pricePrecLoop_eq, ht, if_neg hne]
  refine ⟨by rw [hmain, decide_eq_true_iff], ?_, ?_⟩
  · rintro ⟨k, rfl⟩
    rw [hmain, mul_div_cancel_right₀ _ hne, pyRound_intCast]
    simp only [sub_self, abs_zero]
    rw [decide_eq_true_iff]
    positivity
  · intro hk
    rw [hmain, decide_eq_false_iff_not]
    exact not_le.mpr (hk (pyRound (p / t)))

/-- Claim C4: for a TRADING symbol with minimum quantity `m` (`0 < m`, the only
regime in which the claim's clauses are jointly consistent), the quantity check
rejects every `q ≤ 0` with the non-positive message, rejects every
`0 < q < m` with the below-minimum message, accepts every `q ≥ m`, and the two
rejection messages are distinct. -/
theorem quantity_check_thresholds (g : Gateway) (symbol : String) (q m : ℚ)
    (info : ExchangeInfo) (hg : g.exchangeInfo = some info)
    (hm : lotMin info.symbols symbol.toUpper = some m) (hm0 : 0 < m)
    (hsym : validate_symbol g symbol = true) :
    (q ≤ 0 → quantity_check g symbol q = (false, [invalid_quantity_msg q])) ∧
    (0 < q → q < m → quantity_check g symbol q = (false, [below_minimum_msg q m symbol])) ∧
    (m ≤ q → quantity_check g symbol q = (true, [])) ∧
    invalid_quantity_msg q ≠ below_minimum_msg q m symbol := by
  have hvq : validate_quantity g symbol q =
      (if m ≤ q then (true, []) else (false, [below_minimum_msg q m symbol])) := by
    simp [validate_quantity, hg, validateQtyLoop_eq, hm]
  refine ⟨fun h => by simp [quantity_check, if_pos h], ?_, ?_,
    invalid_quantity_msg_ne q m symbol⟩
  · intro h0 hlt
    simp only [quantity_check, if_neg (not_le.mpr h0), hvq, if_neg (not_le.mpr hlt)]
  · intro hge
    have h0 : ¬ q ≤ 0 := not_le.mpr (lt_of_lt_of_le hm0 hge)
    simp only [quantity_check, if_neg h0, hvq, if_pos hge]

/-- Claim C6: symbol validation yields the same outcome on a symbol and on its
upper-cased form, and a symbol is accepted only when its upper-cased form
appears among the symbols whose trading status is TRADING. -/
theorem validate_symbol_case_insensitive (g : Gateway) (symbol : String) :
    validate_symbol g symbol = validate_symbol g symbol.toUpper ∧
    (∀ info, g.exchangeInfo = some info → validate_symbol g symbol = true →
      symbol.toUpper ∈ (info.symbols.filter (fun s => s.status == "TRADING")).map
        (fun s => s.symbol)) := by
  constructor
  · cases hg : g.exchangeInfo <;>
      simp [validate_symbol, hg, string_toUpper_toUpper]
  · intro info hg hv
    simp only [validate_symbol, hg] at hv
    simpa using hv

/-- Claim C7: when the account-info query of the startup connectivity check
raises, the check returns `false` instead of propagating, and construction
still completes and returns the session object. -/
theorem init_soft_fail_on_connectivity (g : Gateway) (h : g.accountInfo = none) :
    test_connection g = false ∧ bot_init true g = Except.ok { gateway := g } := by
  simp [test_connection, h, bot_init]

/-- Claim C8: `get_account_balance` returns `none` exactly when the account
query raises; otherwise it returns a record in which each of the four balance
fields equals the upstream value when present and `0` when absent. -/
theorem get_account_balance_fields (g : Gateway) :
    (get_account_balance g = none ↔ g.accountInfo = none) ∧
    (∀ a b, g.accountInfo = some a → get_account_balance g = some b →
      ((a.totalWalletBalance = none → b.total_wallet_balance = 0) ∧
        ∀ v, a.totalWalletBalance = some v → b.total_wallet_balance = v) ∧
      ((a.totalUnrealizedPnL = none → b.total_unrealized_pnl = 0) ∧
        ∀ v, a.totalUnrealizedPnL = some v → b.total_unrealized_pnl = v) ∧
      ((a.totalMarginBalance = none → b.total_margin_balance = 0) ∧
        ∀ v, a.totalMarginBalance = some v → b.total_margin_balance = v) ∧
      ((a.availableBalance = none → b.available_balance = 0) ∧
        ∀ v, a.availableBalance = some v → b.available_balance = v)) := by
  constructor
  · cases hg : g.accountInfo <;> simp [get_account_balance, hg]
  · intro a b hg hb
    simp only [get_account_balance, hg, Option.some.injEq] at hb
    subst hb
    refine ⟨⟨fun h => by simp [h], fun v h => by simp [h]⟩,
      ⟨fun h => by simp [h], fun v h => by simp [h]⟩,
      ⟨fun h => by simp [h], fun v h => by simp [h]⟩,
      ⟨fun h => by simp [h], fun v h => by simp [h]⟩⟩

/-- Claim C9: a symbol whose fetched metadata has no `PRICE_FILTER` passes the
price-precision check at every price, while the quantity check rejects every
quantity when the metadata fetch raises, when the symbol is missing, or when
no matching entry carries a `LOT_SIZE` filter. -/
theorem missing_filter_behavior (g : Gateway) (symbol : String) :
    (∀ info, get_symbol_info g symbol = some info →
      (∀ f ∈ info.filters, f.filterType ≠ "PRICE_FILTER") →
      ∀ p : ℚ, validate_price_precision g symbol p = true) ∧
    (g.exchangeInfo = none → ∀ q : ℚ, (validate_quantity g symbol q).1 = false) ∧
    (∀ info, g.exchangeInfo = some info →
      lotMin info.symbols symbol.toUpper = none →
      ∀ q : ℚ, (validate_quantity g symbol q).1 = false) := by
  refine ⟨?_, ?_, ?_⟩
  · intro info hinfo hnof p
    simp [validate_price_precision, hinfo, pricePrecLoop_eq, findTickSize_eq_none hnof]
  · intro hg q
    simp [validate_quantity, hg]
  · intro info hg hlm q
    simp [validate_quantity, hg, validateQtyLoop_eq, hlm]

/-- Claim C2: on any validation failure (invalid symbol, invalid side,
non-positive or sub-minimum quantity, and for limit orders non-positive or
off-tick price), `place_market_order` and `place_limit_order` return `none`
and submit no request through the gateway order-creation operation. -/
theorem validation_failure_no_submission (g : Gateway) (symbol side : String)
    (q p : ℚ) :
    ((validate_symbol g symbol = false ∨ isValidSide side = false ∨ q ≤ 0 ∨
        (validate_quantity g symbol q).1 = false) →
      place_market_order g symbol side q = (none, []) ∧
      place_limit_order g symbol side q p = (none, [])) ∧
    ((p ≤ 0 ∨ validate_price_precision g symbol p = false) →
      place_limit_order g symbol side q p = (none, [])) := by
  have hqc : (q ≤ 0 ∨ (validate_quantity g symbol q).1 = false) →
      (quantity_check g symbol q).1 = false := by
    intro h
    by_cases h0 : q ≤ 0
    · simp [quantity_check, if_pos h0]
    · rcases h with h | h
      · exact absurd h h0
      · simp [quantity_check, if_neg h0, h]
  constructor
  · intro h
    have hv : validate_market_order_inputs g symbol side q = false := by
      rcases h with h | h | h | h
      · simp [validate_market_order_inputs, h]
      · simp [validate_market_order_inputs, h]
      · simp [validate_market_order_inputs, hqc (Or.inl h)]
      · simp [validate_market_order_inputs, hqc (Or.inr h)]
    have hvl : validate_limit_order_inputs g symbol side q p = false := by
      rcases h with h | h | h | h
      · simp [validate_limit_order_inputs, h]
      · simp [validate_limit_order_inputs, h]
      · simp [validate_limit_order_inputs, hqc (Or.inl h)]
      · simp [validate_limit_order_inputs, hqc (Or.inr h)]
    exact ⟨by simp [place_market_order, hv], by simp [place_limit_order, hvl]⟩
  · intro h
    have hvl : validate_limit_order_inputs g symbol side q p = false := by
      rcases h with h | h
      · simp [validate_limit_order_inputs, not_lt.mpr h]
      · simp [validate_limit_order_inputs, h]
    simp [place_limit_order, hvl]

theorem validation_failure_no_submission_witness :
    place_market_order mockGateway "BTCUSDT" "buy" 0 = (none, []) ∧
    place_limit_order mockGateway "BTCUSDT" "buy" 0 100 = (none, []) :=
  (validation_failure_no_submission mockGateway "BTCUSDT" "buy" 0 100).1
    (Or.inr (Or.inr (Or.inl le_rfl)))

/-- Claim C3 counterexample: on a gateway whose submission succeeds but whose
status query raises, `place_market_order` does not return `none` — it returns
a full result record (with an absent status), contradicting the claim that a
status-fetch error yields an absent result. -/
theorem status_fetch_error_returns_result :
    (place_market_order failStatusGateway "BTCUSDT" "buy" (1 / 1000)).1 =
      some { order_id := 42, symbol := "BTCUSDT", side := "buy",
             quantity := 1 / 1000, price := none, type := "MARKET",
             status := none } ∧
    (place_market_order failStatusGateway "BTCUSDT" "buy" (1 / 1000)).1 ≠ none := by
  have h : (place_market_order failStatusGateway "BTCUSDT" "buy" (1 / 1000)).1 =
      some { order_id := 42, symbol := "BTCUSDT", side := "buy",
             quantity := 1 / 1000, price := none, type := "MARKET",
             status := none } := by
    simp [place_market_order, validate_market_order_inputs, validate_symbol,
      isValidSide, quantity_check, validate_quantity, validateQtyLoop,
      findLotSize, failStatusGateway, mockGateway, btcSymbolInfo, btcFilters,
      btcusdt_upper, buy_upper, marketRequest, get_order_status]
    norm_num
  exact ⟨h, by rw [h]; simp⟩

/-- Claim C3 amended: a gateway error during order submission is caught and
yields `none`; a gateway error during the post-submission status fetch is
caught inside the status helper, and the manager still returns a result record
whose `status` field is absent, not `none`. -/
theorem gateway_error_caught (g : Gateway) (symbol side : String) (q p : ℚ) :
    (validate_market_order_inputs g symbol side q = true →
      (g.createOrder (marketRequest symbol side q) = none →
        place_market_order g symbol side q = (none, [marketRequest symbol side q])) ∧
      (∀ oid, g.createOrder (marketRequest symbol side q) = some oid →
        g.getOrder symbol.toUpper oid = none →
        place_market_order g symbol side q =
          (some { order_id := oid, symbol := symbol, side := side, quantity := q,
                  price := none, type := "MARKET", status := none },
            [marketRequest symbol side q]))) ∧
    (validate_limit_order_inputs g symbol side q p = true →
      (g.createOrder (limitRequest symbol side q p) = none →
        place_limit_order g symbol side q p = (none, [limitRequest symbol side q p])) ∧
      (∀ oid, g.createOrder (limitRequest symbol side q p) = some oid →
        g.getOrder symbol.toUpper oid = none →
        place_limit_order g symbol side q p =
          (some { order_id := oid, symbol := symbol, side := side, quantity := q,
                  price := some p, type := "LIMIT", status := none },
            [limitRequest symbol side q p]))) := by
  constructor
  · intro hv
    refine ⟨fun hco => by simp [place_market_order, hv, hco],
      fun oid hco hgo => by
        simp [place_market_order, hv, hco, get_order_status, hgo]⟩
  · intro hv
    refine ⟨fun hco => by simp [place_limit_order, hv, hco],
      fun oid hco hgo => by
        simp [place_limit_order, hv, hco, get_order_status, hgo]⟩
theorem validate_market_inputs_mock_eval (g : Gateway)
    (h : g.exchangeInfo = some { symbols := [btcSymbolInfo] }) :
    validate_market_order_inputs g "BTCUSDT" "buy" (1 / 1000) = true := by
  simp [validate_market_order_inputs, validate_symbol, h, btcSymbolInfo,
    btcFilters, btcusdt_upper, isValidSide, buy_upper, quantity_check,
    validate_quantity, validateQtyLoop, findLotSize]
  norm_num

theorem validate_limit_inputs_mock_eval (g : Gateway)
    (h : g.exchangeInfo = some { symbols := [btcSymbolInfo] }) :
    validate_limit_order_inputs g "BTCUSDT" "buy" (1 / 1000) 100 = true := by
  simp [validate_limit_order_inputs, validate_symbol, h, btcSymbolInfo,
    btcFilters, btcusdt_upper, isValidSide, buy_upper, quantity_check,
    validate_quantity, validateQtyLoop, findLotSize, validate_price_precision,
    get_symbol_info, pricePrecLoop, pyRound]
  norm_num [Int.fract]

theorem gateway_error_caught_witness :
    place_market_order failCreateGateway "BTCUSDT" "buy" (1 / 1000) =
      (none, [marketRequest "BTCUSDT" "buy" (1 / 1000)]) ∧
    place_limit_order failStatusGateway "BTCUSDT" "buy" (1 / 1000) 100 =
      (some { order_id := 42, symbol := "BTCUSDT", side := "buy",
              quantity := 1 / 1000, price := some 100, type := "LIMIT",
              status := none },
        [limitRequest "BTCUSDT" "buy" (1 / 1000) 100]) := by
  constructor
  · exact ((gateway_error_caught failCreateGateway "BTCUSDT" "buy" (1 / 1000) 100).1
      (validate_market_inputs_mock_eval failCreateGateway rfl)).1 rfl
  · exact (((gateway_error_caught failStatusGateway "BTCUSDT" "buy" (1 / 1000) 100).2
      (validate_limit_inputs_mock_eval failStatusGateway rfl)).2) 42 rfl rfl

/-- Claim C5: against the mocked gateway (`BTCUSDT` TRADING, minQty 0.001,
tick 0.01, submissions accepted), a limit buy of 0.001 at 100.00 succeeds and
echoes quantity 0.001 and price 100.00; quantity 0.0005 is rejected with no
submission; price 100.005 is rejected with no submission. -/
theorem mocked_gateway_limit_order_cases :
    place_limit_order mockGateway "BTCUSDT" "buy" 0.001 100.00 =
      (some { order_id := 42, symbol := "BTCUSDT", side := "buy",
              quantity := 0.001, price := some 100.00, type := "LIMIT",
              status := some "NEW" },
        [limitRequest "BTCUSDT" "buy" 0.001 100.00]) ∧
    place_limit_order mockGateway "BTCUSDT" "buy" 0.0005 100.00 = (none, []) ∧
    place_limit_order mockGateway "BTCUSDT" "buy" 0.001 100.005 = (none, []) := by
  refine ⟨?_, ?_, ?_⟩
  · simp [place_limit_order, validate_limit_order_inputs, validate_symbol,
      isValidSide, quantity_check, validate_quantity, validateQtyLoop,
      findLotSize, validate_price_precision, get_symbol_info, pricePrecLoop,
      pyRound, get_order_status, mockGateway, btcSymbolInfo, btcFilters,
      btcusdt_upper, buy_upper, limitRequest]
    norm_num [Int.fract]
  · simp [place_limit_order, validate_limit_order_inputs, validate_symbol,
      isValidSide, quantity_check, validate_quantity, validateQtyLoop,
      findLotSize, mockGateway, btcSymbolInfo, btcFilters, btcusdt_upper,
      buy_upper]
    norm_num
  · simp [place_limit_order, validate_limit_order_inputs, validate_symbol,
      isValidSide, quantity_check, validate_quantity, validateQtyLoop,
      findLotSize, validate_price_precision, get_symbol_info, pricePrecLoop,
      pyRound, mockGateway, btcSymbolInfo, btcFilters, btcusdt_upper,
      buy_upper]
    norm_num [Int.fract]
    exact lt_of_lt_of_le (by norm_num) (le_abs_self _)

/-- Claim C10: every successful `place_market_order`/`place_limit_order`
result echoes the caller's original symbol and side strings verbatim and the
caller's quantity (and price) unchanged, while the submitted request carries
the upper-cased symbol and side. -/
theorem result_echoes_caller_inputs (g : Gateway) (symbol side : String)
    (q p : ℚ) :
    (∀ r trace, place_market_order g symbol side q = (some r, trace) →
      r.symbol = symbol ∧ r.side = side ∧ r.quantity = q ∧
      trace = [marketRequest symbol side q] ∧
      (marketRequest symbol side q).symbol = symbol.toUpper ∧
      (marketRequest symbol side q).side = side.toUpper) ∧
    (∀ r trace, place_limit_order g symbol side q p = (some r, trace) →
      r.symbol = symbol ∧ r.side = side ∧ r.quantity = q ∧ r.price = some p ∧
      trace = [limitRequest symbol side q p] ∧
      (limitRequest symbol side q p).symbol = symbol.toUpper ∧
      (limitRequest symbol side q p).side = side.toUpper) := by
  constructor
  · intro r trace h
    by_cases hv : validate_market_order_inputs g symbol side q = true
    · cases hco : g.createOrder (marketRequest symbol side q) with
      | none => simp [place_market_order, hv, hco] at h
      | some oid =>
          simp only [place_market_order, hv, if_true, hco, Prod.mk.injEq,
            Option.some.injEq] at h
          obtain ⟨hr, htr⟩ := h
          subst hr
          subst htr
          exact ⟨rfl, rfl, rfl, rfl, rfl, rfl⟩
    · simp [place_market_order, hv] at h
  · intro r trace h
    by_cases hv : validate_limit_order_inputs g symbol side q p = true
    · cases hco : g.createOrder (limitRequest symbol side q p) with
      | none => simp [place_limit_order, hv, hco] at h
      | some oid =>
          simp only [place_limit_order, hv, if_true, hco, Prod.mk.injEq,
            Option.some.injEq] at h
          obtain ⟨hr, htr⟩ := h
          subst hr
          subst htr
          exact ⟨rfl, rfl, rfl, rfl, rfl, rfl, rfl⟩
    · simp [place_limit_order, hv] at h
theorem validate_price_precision_tick_alignment_witness :
    validate_price_precision mockGateway "BTCUSDT" (10002 / 100) = true := by
  refine (validate_price_precision_tick_alignment mockGateway "BTCUSDT"
    (10002 / 100) (1 / 100) btcSymbolInfo ?_ ?_ (by norm_num) (by norm_num)).2.1
    ⟨10002, by norm_num⟩
  · simp [get_symbol_info, mockGateway, btcusdt_upper, btcSymbolInfo]
  · simp [btcSymbolInfo, btcFilters, findTickSize]
    norm_num

theorem quantity_check_thresholds_witness :
    quantity_check mockGateway "BTCUSDT" 0 = (false, [invalid_quantity_msg 0]) ∧
    quantity_check mockGateway "BTCUSDT" 0.0005 =
      (false, [below_minimum_msg 0.0005 0.001 "BTCUSDT"]) ∧
    quantity_check mockGateway "BTCUSDT" 0.001 = (true, []) := by
  have hm : lotMin ({ symbols := [btcSymbolInfo] } : ExchangeInfo).symbols
      ("BTCUSDT" : String).toUpper = some 0.001 := by
    simp [lotMin, btcusdt_upper, btcSymbolInfo, btcFilters, findLotSize]
  have hsym : validate_symbol mockGateway "BTCUSDT" = true := by
    simp [validate_symbol, mockGateway, btcusdt_upper, btcSymbolInfo]
  refine ⟨(quantity_check_thresholds mockGateway "BTCUSDT" 0 0.001 _ rfl hm
      (by norm_num) hsym).1 le_rfl,
    (quantity_check_thresholds mockGateway "BTCUSDT" 0.0005 0.001 _ rfl hm
      (by norm_num) hsym).2.1 (by norm_num) (by norm_num),
    (quantity_check_thresholds mockGateway "BTCUSDT" 0.001 0.001 _ rfl hm
      (by norm_num) hsym).2.2.1 le_rfl⟩

theorem validate_symbol_case_insensitive_witness :
    validate_symbol mockGateway "btcusdt" = validate_symbol mockGateway "BTCUSDT" ∧
    ("btcusdt" : String).toUpper ∈
      ((({ symbols := [btcSymbolInfo] } : ExchangeInfo).symbols.filter
        (fun s => s.status == "TRADING")).map (fun s => s.symbol)) := by
  constructor
  · have h := (validate_symbol_case_insensitive mockGateway "btcusdt").1
    rwa [btcusdt_lower_upper] at h
  · exact (validate_symbol_case_insensitive mockGateway "btcusdt").2 _ rfl
      (by simp [validate_symbol, mockGateway, btcusdt_lower_upper, btcSymbolInfo])

theorem init_soft_fail_on_connectivity_witness :
    test_connection degradedGateway = false ∧
    bot_init true degradedGateway = Except.ok { gateway := degradedGateway } :=
  init_soft_fail_on_connectivity degradedGateway rfl

theorem get_account_balance_fields_witness :
    get_account_balance degradedGateway = none ∧
    ({ total_wallet_balance := 5, total_unrealized_pnl := 0,
       total_margin_balance := 0, available_balance := 0 } :
        BalanceInfo).total_wallet_balance = 5 := by
  constructor
  · exact (get_account_balance_fields degradedGateway).1.mpr rfl
  · exact ((get_account_balance_fields partialBalanceGateway).2
      { totalWalletBalance := some 5 } _ rfl
      (by simp [get_account_balance, partialBalanceGateway, degradedGateway])).1.2 5 rfl

theorem missing_filter_behavior_witness :
    validate_price_precision noFilterGateway "ETHUSDT" 37 = true ∧
    (validate_quantity noFilterGateway "ETHUSDT" 1).1 = false := by
  constructor
  · exact (missing_filter_behavior noFilterGateway "ETHUSDT").1
      { symbol := "ETHUSDT", status := "TRADING", filters := [] }
      (by simp [get_symbol_info, noFilterGateway, degradedGateway, ethusdt_upper])
      (by simp) 37
  · exact (missing_filter_behavior noFilterGateway "ETHUSDT").2.2
      { symbols := [{ symbol := "ETHUSDT", status := "TRADING", filters := [] }] }
      rfl (by simp [lotMin, ethusdt_upper, findLotSize]) 1

theorem result_echoes_caller_inputs_witness :
    ({ order_id := 42, symbol := "BTCUSDT", side := "buy", quantity := 1 / 1000,
       price := none, type := "MARKET", status := some "NEW" } :
        OrderResult).symbol = "BTCUSDT" ∧
    ({ order_id := 42, symbol := "BTCUSDT", side := "buy", quantity := 1 / 1000,
       price := none, type := "MARKET", status := some "NEW" } :
        OrderResult).side = "buy" ∧
    ({ order_id := 42, symbol := "BTCUSDT", side := "buy", quantity := 1 / 1000,
       price := none, type := "MARKET", status := some "NEW" } :
        OrderResult).quantity = 1 / 1000 ∧
    [marketRequest "BTCUSDT" "buy" (1 / 1000)] =
      [marketRequest "BTCUSDT" "buy" (1 / 1000)] ∧
    (marketRequest "BTCUSDT" "buy" (1 / 1000)).symbol =
      ("BTCUSDT" : String).toUpper ∧
    (marketRequest "BTCUSDT" "buy" (1 / 1000)).side =
      ("buy" : String).toUpper := by
  refine (result_echoes_caller_inputs mockGateway "BTCUSDT" "buy" (1 / 1000) 100).1
    _ _ ?_
  have hv := validate_market_inputs_mock_eval mockGateway rfl
  simp only [place_market_order, hv, eq_self_iff_true, if_true]
  rfl

end TradingBot
